import Mathlib

/-!
A verification development for `scripts/process_devices.py`.

The script discovers release versions of a firmware download site by scraping
its releases directory page, walks the per-version `targets/` directory tree,
fetches per-subtarget `profiles.json` documents (falling back to `.json.gz`
and `.json.xz`), normalizes them into five-field device records, sorts the
aggregate list and writes it to a JSON file.

The HTTP world is modelled as an oracle (`World`): `page url` returns the
anchor hrefs of the HTML directory listing at `url` (`none` models a request
exception), and `fetch url` returns the outcome of one candidate profile
document request: transport failure or non-200 status, a 200 body whose
decoding raises one of the exception types the loop catches, a 200 body
whose decoding raises an uncaught exception that aborts the run, or a parsed
JSON object.  String data is treated as ASCII, which is
what the upstream data contains; Python string comparison, splitting, casing
and stripping are embedded as explicit functions over `String.data`.
-/

/-- The canonical five-field device record appended to `all_processed_devices`. -/
structure DeviceRecord where
  title : String
  target : String
  profile : String
  version : String
  arch : String
deriving DecidableEq, Repr

/-- Python `str.split(sep)` for a one-character separator, over char lists.
`splitOnChar '.' "a.b"` gives `[['a'], ['b']]`; the empty string gives `[[]]`. -/
def splitOnChar (sep : Char) : List Char → List (List Char)
  | [] => [[]]
  | c :: cs =>
    match splitOnChar sep cs with
    | [] => [[]]
    | h :: t => if c = sep then [] :: h :: t else (c :: h) :: t

/-- A non-empty run of ASCII digits: what one group `\d+` of the version
pattern accepts. -/
def isDigitRun (l : List Char) : Bool :=
  !l.isEmpty && l.all Char.isDigit

/-- The regex `^(\d+\.\d+\.\d+)/$` used on each link of the releases page:
returns the captured dotted version when the whole link matches. -/
def versionPatternMatch (link : String) : Option String :=
  match splitOnChar '/' link.data with
  | [v, []] =>
    match splitOnChar '.' v with
    | [a, b, c] =>
      if isDigitRun a && isDigitRun b && isDigitRun c then some ⟨v⟩ else none
    | _ => none
  | _ => none

/-- `'.'.join(full_version.split('.')[:2])`: the major version of a dotted
version string (its first two components). -/
def majorOf (full_version : String) : String :=
  ⟨List.intercalate ['.'] ((splitOnChar '.' full_version.data).take 2)⟩

/-- One update of the `latest_releases` dict (modelled as an association list
in insertion order): `if major_version not in latest_releases or full_version >
latest_releases[major_version]: latest_releases[major_version] = full_version`.
Python string `>` is lexicographic comparison by code point, embedded as `<`
on `String.data`. -/
def updateRelease (latest_releases : List (String × String))
    (major_version full_version : String) : List (String × String) :=
  match latest_releases.lookup major_version with
  | none => latest_releases ++ [(major_version, full_version)]
  | some current =>
    if current.data < full_version.data then
      latest_releases.map (fun p =>
        if p.1 == major_version then (major_version, full_version) else p)
    else latest_releases

/-- The body of the link loop of `get_latest_point_releases` for one link. -/
def glprStep (supported : List String) (latest_releases : List (String × String))
    (link : String) : List (String × String) :=
  match versionPatternMatch link with
  | none => latest_releases
  | some full_version =>
    if supported.contains (majorOf full_version) then
      updateRelease latest_releases (majorOf full_version) full_version
    else latest_releases

/-- The pure core of `get_latest_point_releases`: fold the version-pattern /
supported-major / keep-largest update over the scraped links, starting from an
empty dict. -/
def get_latest_point_releases (supported : List String) (links : List String) :
    List (String × String) :=
  links.foldl (glprStep supported) []

/-- `RELEASES_PAGE_URL` from the script. -/
def RELEASES_PAGE_URL : String := "https://downloads.openwrt.org/releases/"

/-- `SUPPORTED_MAJOR_VERSIONS` from the script. -/
def SUPPORTED_MAJOR_VERSIONS : List String := ["24.10", "23.05", "22.03", "21.02"]

/-- `OUTPUT_FILE` from the script. -/
def OUTPUT_FILE : String := "devices.json"

/-- One element of a profile's `titles` list: a JSON object whose `vendor` and
`model` keys may each be absent. -/
structure TitleEntry where
  vendor : Option String
  model : Option String
deriving DecidableEq, Repr

/-- The value stored under one profile id in a dict-of-dicts `profiles`
object.  `dict` carries the optional `titles` list and the optional direct
`title` key (which the script never reads); `nondict` is any non-dict value,
which the `isinstance(device_details, dict)` check skips. -/
inductive DeviceDetails
  | dict (titles : Option (List TitleEntry)) (title : Option String)
  | nondict
deriving DecidableEq, Repr

/-- The `profiles` value of a profiles document: a dict of per-profile
objects (insertion order kept), a legacy list of profile-id strings, or any
other truthy value (which matches neither `isinstance` branch). -/
inductive Profiles
  | dictProfiles (entries : List (String × DeviceDetails))
  | listProfiles (profileStrings : List String)
  | otherTruthy
deriving DecidableEq, Repr

/-- A parsed profiles document, restricted to the two keys the script reads.
`arch_packages` and `profiles` are `none` when the key is absent.  (An empty
parsed object is falsy in Python and skipped by `if not profiles_data`; under
this model both keys are then `none`, and the `all([arch, profiles])` check
skips it identically.) -/
structure ProfilesData where
  arch_packages : Option String
  profiles : Option Profiles
deriving DecidableEq, Repr

/-- What one candidate profile request (`requests.get` of one URL plus
decompression and `json.loads`) can come to, as seen by the attempt loop.
The loop's except clause catches exactly `RequestException`,
`gzip.BadGzipFile`, `lzma.LZMAError` and `json.JSONDecodeError`; a decode
error outside that tuple is uncaught and aborts the whole process. -/
inductive FetchOutcome
  /-- An exception raised by the request itself (caught `RequestException`),
  or a status code other than 200 (no exception at all): the loop moves on
  to the next attempt without printing anything. -/
  | fail
  /-- Status 200, but decoding raises one of the caught exception types
  (wrong gzip magic, an LZMA error, or text that does not parse as JSON):
  the found line was already printed and the loop moves on to the next
  attempt. -/
  | badBody
  /-- Status 200, but decoding raises an exception the except tuple does not
  catch — `UnicodeDecodeError` from `content.decode("utf-8")`, or `EOFError`
  / `zlib.error` from a truncated or corrupt gzip stream: the exception
  propagates out of the function and aborts the run. -/
  | crash
  /-- Status 200 and the body decodes to the given JSON object. -/
  | ok (doc : ProfilesData)
deriving DecidableEq, Repr

/-- Whether an outcome makes the attempt loop fall through to the next
suffix: a transport failure or non-200 status, or a decode error of one of
the caught types.  A `crash` outcome is not a caught failure. -/
def FetchOutcome.caughtFailure : FetchOutcome → Bool
  | .fail => true
  | .badBody => true
  | _ => false

/-- How the attempt loop ends: the function returns a value (the parsed
document of a successful attempt, or `None` when every attempt failed with a
caught failure), or an uncaught exception propagates out of it. -/
inductive FadOutcome
  | returns (data : Option ProfilesData)
  | raises
deriving DecidableEq, Repr

/-- The result of `fetch_and_decompress_profiles`: how the loop ended, the
URLs actually requested (in order), and the lines printed. -/
structure FadResult where
  outcome : FadOutcome
  requested : List String
  log : List String
deriving DecidableEq, Repr

/-- The extensions of the three attempts of `fetch_and_decompress_profiles`,
in order; the decompressor paired with each in the script (`None`,
`gzip.decompress`, `lzma.decompress`) is folded into the `fetch` oracle. -/
def attemptExtensions : List String := [".json", ".json.gz", ".json.xz"]

/-- The attempt loop of `fetch_and_decompress_profiles`: request
`url_base + extension`; on status 200 print the found line and try to
decode, returning the document on success; on a caught exception (transport
failure, bad gzip magic, LZMA error, JSON decode error) fall through to the
next attempt; on an uncaught decode exception the loop ends immediately with
`raises` — no further suffix is requested (the found line had already been
printed before the decode). -/
def fadGo (fetch : String → FetchOutcome) (url_base : String) :
    List String → FadResult
  | [] => { outcome := .returns none, requested := [], log := [] }
  | ext :: rest =>
    match fetch (url_base ++ ext) with
    | .ok doc =>
      { outcome := .returns (some doc)
        requested := [url_base ++ ext]
        log := ["    ... Found profile data at " ++ (url_base ++ ext)] }
    | .crash =>
      { outcome := .raises
        requested := [url_base ++ ext]
        log := ["    ... Found profile data at " ++ (url_base ++ ext)] }
    | .badBody =>
      { outcome := (fadGo fetch url_base rest).outcome
        requested := (url_base ++ ext) :: (fadGo fetch url_base rest).requested
        log := ("    ... Found profile data at " ++ (url_base ++ ext))
          :: (fadGo fetch url_base rest).log }
    | .fail =>
      { outcome := (fadGo fetch url_base rest).outcome
        requested := (url_base ++ ext) :: (fadGo fetch url_base rest).requested
        log := (fadGo fetch url_base rest).log }

/-- `fetch_and_decompress_profiles(url_base)`: try `profiles.json`,
`profiles.json.gz`, `profiles.json.xz` in that order and return the first
successfully parsed document, `None` when every attempt fails with a caught
failure, or raise when an attempt hits an uncaught decode error. -/
def fetch_and_decompress_profiles (fetch : String → FetchOutcome)
    (url_base : String) : FadResult :=
  fadGo fetch url_base attemptExtensions

/-- The remote site as an oracle.  `page url` is the list of hrefs of the
anchor tags of the directory listing at `url` (`none` models a
`RequestException`); `fetch url` is the outcome of one profile request. -/
structure World where
  page : String → Option (List String)
  fetch : String → FetchOutcome

/-- The `LinkFinder` HTML parser: of all anchor hrefs, keep those that end
with `/` (directory links). -/
def linkFinder (hrefs : List String) : List String :=
  hrefs.filter (fun href => href.data.getLast? == some '/')

/-- `get_subdirectories(url)`: scrape the listing and drop sort links
(starting with `?`) and the root link `/`; an exception yields `[]`. -/
def get_subdirectories (w : World) (url : String) : List String :=
  match w.page url with
  | none => []
  | some hrefs =>
    (linkFinder hrefs).filter (fun link =>
      !(link.data.head? == some '?') && (link != "/"))

/-- The run of `get_latest_point_releases()` against the oracle: scrape
`RELEASES_PAGE_URL` and fold the update over its directory links; a
`RequestException` (and likewise an empty result) returns the empty dict. -/
def get_latest_point_releases_run (w : World) : List (String × String) :=
  match w.page RELEASES_PAGE_URL with
  | none => []
  | some hrefs =>
    get_latest_point_releases SUPPORTED_MAJOR_VERSIONS (linkFinder hrefs)

/-- Python truthiness of an optional string (`None` and `""` are falsy). -/
def strOptTruthy : Option String → Bool
  | none => false
  | some s => !s.data.isEmpty

/-- Python truthiness of the optional `profiles` value (`None`, `{}` and
`[]` are falsy). -/
def profsTruthy : Option Profiles → Bool
  | none => false
  | some (.dictProfiles entries) => !entries.isEmpty
  | some (.listProfiles profileStrings) => !profileStrings.isEmpty
  | some .otherTruthy => true

/-- Python `str.strip` with an arbitrary character class: drop matching
characters from both ends. -/
def pyStrip (p : Char → Bool) (s : String) : String :=
  ⟨((s.data.dropWhile p).reverse.dropWhile p).reverse⟩

/-- `str.strip()`: strip whitespace from both ends. -/
def pyStripWs (s : String) : String := pyStrip Char.isWhitespace s

/-- `str.strip('/')`: strip slashes from both ends. -/
def pyStripSlash (s : String) : String := pyStrip (· == '/') s

/-- Python `str.replace(a, b)` for one-character arguments. -/
def replaceChar (a b : Char) (s : String) : String :=
  ⟨s.data.map (fun c => if c = a then b else c)⟩

/-- Python `str.title()` (ASCII): a letter that follows a non-letter is
uppercased, any other letter is lowercased, non-letters pass through. -/
def pyTitleGo : Bool → List Char → List Char
  | _, [] => []
  | prevCased, c :: cs =>
    if c.isAlpha then
      (if prevCased then c.toLower else c.toUpper) :: pyTitleGo true cs
    else
      c :: pyTitleGo false cs

/-- Python `str.title()` on a string. -/
def pyTitle (s : String) : String := ⟨pyTitleGo false s.data⟩

/-- The dict-of-dicts branch for one `(profile_id, device_details)` item:
skip non-dict details; read `titles` (defaulting to `[]`) and skip when it is
empty; otherwise take the first element, default a missing `vendor` to
`"Generic"` and a missing `model` to the profile id, and emit one record with
title `f"{vendor} {model}".strip()`.  The direct `title` key of the details
dict is never consulted. -/
def dictEntryRecords (arch target_path version profile_id : String) :
    DeviceDetails → List DeviceRecord
  | .nondict => []
  | .dict titles _directTitle =>
    match titles.getD [] with
    | [] => []
    | title_info :: _ =>
      [{ title := pyStripWs ((title_info.vendor.getD "Generic") ++ " "
            ++ (title_info.model.getD profile_id))
         target := target_path
         profile := profile_id
         version := version
         arch := arch }]

/-- The list-of-strings branch for one profile string: the title is the
string with `_` and `-` replaced by spaces and then title-cased. -/
def listEntryRecord (arch target_path version profile_string : String) :
    DeviceRecord :=
  { title := pyTitle (replaceChar '-' ' ' (replaceChar '_' ' ' profile_string))
    target := target_path
    profile := profile_string
    version := version
    arch := arch }

/-- The per-document part of the subtarget loop: `if not all([arch,
profiles]): continue`, then dispatch on the shape of `profiles`.  A truthy
`profiles` value that is neither a dict nor a list matches no branch and
yields nothing. -/
def processDoc (profiles_data : ProfilesData) (target_path version : String) :
    List DeviceRecord :=
  if strOptTruthy profiles_data.arch_packages
      && profsTruthy profiles_data.profiles then
    match profiles_data.profiles with
    | some (.dictProfiles entries) =>
      entries.flatMap (fun pe =>
        dictEntryRecords (profiles_data.arch_packages.getD "") target_path
          version pe.1 pe.2)
    | some (.listProfiles profileStrings) =>
      profileStrings.map
        (listEntryRecord (profiles_data.arch_packages.getD "") target_path
          version)
    | some .otherTruthy => []
    | none => []
  else []

/-- `f"https://downloads.openwrt.org/releases/{version}/targets/"`. -/
def targetsBaseUrl (version : String) : String :=
  "https://downloads.openwrt.org/releases/" ++ version ++ "/targets/"

/-- `f"{target_dir.strip('/')}/{subtarget_dir.strip('/')}"`. -/
def targetPathOf (target_dir subtarget_dir : String) : String :=
  pyStripSlash target_dir ++ "/" ++ pyStripSlash subtarget_dir

/-- `f"{targets_base_url}{target_path}/profiles"`. -/
def profilesUrlBase (version target_path : String) : String :=
  targetsBaseUrl version ++ target_path ++ "/profiles"

/-- Whether the profiles fetch of one `(target_dir, subtarget_dir)` unit
raises an uncaught exception.  Nothing in the subtarget loop, the version
loop or `__main__` catches it, so a raising unit aborts the whole run (see
`runRaises` and `fetch_all_devices_from_structure`). -/
def unitRaises (w : World) (version target_dir subtarget_dir : String) : Bool :=
  match (fetch_and_decompress_profiles w.fetch
      (profilesUrlBase version (targetPathOf target_dir subtarget_dir))).outcome with
  | .raises => true
  | .returns _ => false

/-- The body of the subtarget loop for one `(target_dir, subtarget_dir)`
unit when its fetch returns: normalize the document, with
`if not profiles_data: continue` contributing nothing.  When the fetch
raises instead, the run aborts before this unit's value is ever consumed
(`fetch_all_devices_from_structure` checks `runRaises` before the record
list is used); the value here is `[]` in that unreachable case. -/
def unitRecords (w : World) (version target_dir subtarget_dir : String) :
    List DeviceRecord :=
  match (fetch_and_decompress_profiles w.fetch
      (profilesUrlBase version (targetPathOf target_dir subtarget_dir))).outcome with
  | .raises => []
  | .returns none => []
  | .returns (some profiles_data) =>
    processDoc profiles_data (targetPathOf target_dir subtarget_dir) version

/-- The records one version contributes: walk its targets and their
subtargets and concatenate every unit's records.  A version with no targets
is only a logged warning and contributes nothing. -/
def processVersion (w : World) (version : String) : List DeviceRecord :=
  (get_subdirectories w (targetsBaseUrl version)).flatMap (fun target_dir =>
    (get_subdirectories w (targetsBaseUrl version ++ target_dir)).flatMap
      (fun subtarget_dir => unitRecords w version target_dir subtarget_dir))

/-- Whether some unit of this version's directory walk raises an uncaught
exception during its profiles fetch. -/
def versionRaises (w : World) (version : String) : Bool :=
  (get_subdirectories w (targetsBaseUrl version)).any (fun target_dir =>
    (get_subdirectories w (targetsBaseUrl version ++ target_dir)).any
      (fun subtarget_dir => unitRaises w version target_dir subtarget_dir))

/-- Whether the fetch loop of `fetch_all_devices_from_structure` raises an
uncaught exception for some processed version.  The loops have no early exit
other than the exception itself, so an uncaught decode error anywhere in the
walk means the process dies with a traceback (exit status 1) before the
record list is counted, sorted or written. -/
def runRaises (w : World) (latest_releases : List (String × String)) : Bool :=
  latest_releases.any (fun p => versionRaises w p.2)

/-- The key of the final sort: `lambda x: (x['title'], x['version'])`,
compared as a Python tuple of strings. -/
def recKey (r : DeviceRecord) : String × String := (r.title, r.version)

/-- Python `<=` on a pair of strings (tuple comparison: lexicographic by
component, strings compared by code point). -/
def pairLe (p q : String × String) : Prop :=
  p.1.data < q.1.data ∨ (p.1 = q.1 ∧ p.2.data ≤ q.2.data)

instance : DecidableRel pairLe := fun p q =>
  inferInstanceAs (Decidable (p.1.data < q.1.data ∨ (p.1 = q.1 ∧ p.2.data ≤ q.2.data)))

/-- `x` may precede `y` in the `reverse=True` sort: the key of `y` is at most
the key of `x`. -/
def keyGe (x y : DeviceRecord) : Prop := pairLe (recKey y) (recKey x)

instance : DecidableRel keyGe := fun x y =>
  inferInstanceAs (Decidable (pairLe (recKey y) (recKey x)))

/-- `all_processed_devices.sort(key=lambda x: (x['title'], x['version']),
reverse=True)`: a stable sort placing larger keys first. -/
def sortDevices (l : List DeviceRecord) : List DeviceRecord :=
  l.insertionSort keyGe

/-- JSON string escaping as `json.dump(..., ensure_ascii=False)` performs it:
only the quote, the backslash and control characters are escaped. -/
def jsonEscapeChar (c : Char) : List Char :=
  if c = '"' then ['\\', '"']
  else if c = '\\' then ['\\', '\\']
  else if c = '\n' then ['\\', 'n']
  else if c = '\t' then ['\\', 't']
  else if c = '\r' then ['\\', 'r']
  else if c = Char.ofNat 8 then ['\\', 'b']
  else if c = Char.ofNat 12 then ['\\', 'f']
  else if c.toNat < 32 then
    ['\\', 'u', '0', '0',
      (if c.toNat / 16 < 10 then Char.ofNat (48 + c.toNat / 16)
       else Char.ofNat (87 + c.toNat / 16)),
      (if c.toNat % 16 < 10 then Char.ofNat (48 + c.toNat % 16)
       else Char.ofNat (87 + c.toNat % 16))]
  else [c]

/-- A JSON string literal for `s`. -/
def jsonQuote (s : String) : String :=
  ⟨'"' :: (s.data.flatMap jsonEscapeChar) ++ ['"']⟩

/-- One record as `json.dump` with `indent=2` prints it inside the array. -/
def serializeRecord (r : DeviceRecord) : String :=
  "  \x7b\n    \"title\": " ++ jsonQuote r.title
    ++ ",\n    \"target\": " ++ jsonQuote r.target
    ++ ",\n    \"profile\": " ++ jsonQuote r.profile
    ++ ",\n    \"version\": " ++ jsonQuote r.version
    ++ ",\n    \"arch\": " ++ jsonQuote r.arch
    ++ "\n  \x7d"

/-- The bytes `json.dump(all_processed_devices, f, ensure_ascii=False,
indent=2)` writes for the whole list. -/
def serializeDevices (l : List DeviceRecord) : String :=
  if l.isEmpty then "[]"
  else "[\n" ++ String.intercalate ",\n" (l.map serializeRecord) ++ "\n]"

/-- The observable outcome of a run: the process exit status and the record
list handed to the writer (`none` when the write step is never reached —
`sys.exit(1)` paths and the uncaught-exception abort alike; the write itself
is assumed to succeed, the script's `IOError` branch being the only path not
modelled).  Python exits with status 1 both on `sys.exit(1)` and on an
uncaught exception. -/
structure RunResult where
  exitCode : Nat
  written : Option (List DeviceRecord)
deriving DecidableEq, Repr

/-- The bytes of the output file a run produces, when the writer ran. -/
def outputFile (r : RunResult) : Option String :=
  r.written.map serializeDevices

/-- `fetch_all_devices_from_structure(latest_releases)`: exit 1 on an empty
release dict; if any unit of the walk raises an uncaught decode exception,
the process dies with a traceback (exit status 1) before the record list is
counted or written; otherwise exit 1 when the collected total is empty, and
otherwise sort and write. -/
def fetch_all_devices_from_structure (w : World)
    (latest_releases : List (String × String)) : RunResult :=
  if latest_releases.isEmpty then { exitCode := 1, written := none }
  else if runRaises w latest_releases then { exitCode := 1, written := none }
  else
    if (latest_releases.flatMap (fun p => processVersion w p.2)).isEmpty then
      { exitCode := 1, written := none }
    else
      { exitCode := 0
        written := some (sortDevices
          (latest_releases.flatMap (fun p => processVersion w p.2))) }

/-- The `__main__` block: discover the stable versions; with none, exit 1
without touching the output file; otherwise run the full fetch. -/
def main_run (w : World) : RunResult :=
  if (get_latest_point_releases_run w).isEmpty then
    { exitCode := 1, written := none }
  else fetch_all_devices_from_structure w (get_latest_point_releases_run w)

instance : IsTotal DeviceRecord keyGe :=
  ⟨fun a b => by
    unfold keyGe pairLe
    rcases lt_trichotomy (recKey b).1.data (recKey a).1.data with h | h | h
    · exact Or.inl (Or.inl h)
    · rcases le_total (recKey b).2.data (recKey a).2.data with h2 | h2
      · exact Or.inl (Or.inr ⟨String.ext h, h2⟩)
      · exact Or.inr (Or.inr ⟨(String.ext h).symm, h2⟩)
    · exact Or.inr (Or.inl h)⟩

instance : IsTrans DeviceRecord keyGe :=
  ⟨fun a b c h1 h2 => by
    unfold keyGe pairLe at h1 h2 ⊢
    rcases h2 with h2 | ⟨e2, l2⟩ <;> rcases h1 with h1 | ⟨e1, l1⟩
    · exact Or.inl (lt_trans h2 h1)
    · refine Or.inl ?_
      rw [← e1]
      exact h2
    · refine Or.inl ?_
      rw [e2]
      exact h1
    · exact Or.inr ⟨e2.trans e1, le_trans l2 l1⟩⟩

/-- The C1 counterexample document: a profile whose first titles element has
an explicitly empty vendor and model, mapping to an empty title. -/
def c1doc : ProfilesData :=
  { arch_packages := some "mips_24kc"
    profiles := some (.dictProfiles
      [("dev1", .dict (some [{ vendor := some "", model := some "" }]) none)]) }

/-- A world exposing one version with one target, one subtarget and `c1doc`
as its plain profiles.json. -/
def c1World : World :=
  { page := fun url =>
      if url = targetsBaseUrl "21.02.7" then some ["ath79/"]
      else if url = targetsBaseUrl "21.02.7" ++ "ath79/" then some ["generic/"]
      else none
    fetch := fun url =>
      if url = profilesUrlBase "21.02.7" "ath79/generic" ++ ".json" then .ok c1doc
      else .fail }

/-- The empty-title record `c1World` puts into the final output. -/
def c1rec : DeviceRecord :=
  { title := "", target := "ath79/generic", profile := "dev1",
    version := "21.02.7", arch := "mips_24kc" }

/-- Records with titles B, A, B and versions 1.0, 2.0, 3.0 (the spec's
sorting example). -/
def c2recB1 : DeviceRecord := ⟨"B", "t1", "p1", "1.0", "a1"⟩

/-- Second sorting-example record. -/
def c2recA2 : DeviceRecord := ⟨"A", "t2", "p2", "2.0", "a2"⟩

/-- Third sorting-example record. -/
def c2recB3 : DeviceRecord := ⟨"B", "t3", "p3", "3.0", "a3"⟩

/-- A trivial parsed document for the C3 gzip-fallback witness. -/
def c3doc : ProfilesData := { arch_packages := some "a", profiles := none }

/-- A fetch oracle where only `P.json.gz` succeeds (`P.json` gives 404). -/
def c3fetch : String → FetchOutcome := fun url =>
  if url = "P.json.gz" then .ok c3doc else .fail

/-- The claim C4 example document. -/
def c4doc : ProfilesData :=
  { arch_packages := some "arm_cortex-a7"
    profiles := some (.dictProfiles
      [("dev1", .dict (some [{ vendor := some "Acme", model := some "X1" }]) none)]) }

/-- A details dict with no titles list but a direct title key. -/
def c4docDirect : ProfilesData :=
  { arch_packages := some "arm_cortex-a7"
    profiles := some (.dictProfiles [("dev1", .dict none (some "Direct Title"))]) }

/-- The claim C5 example document (legacy list-of-strings shape). -/
def c5doc : ProfilesData :=
  { arch_packages := some "mips_24kc"
    profiles := some (.listProfiles ["tplink_archer-c7-v5"]) }

/-- A world where every request fails (discovery finds nothing). -/
def c7World : World := { page := fun _ => none, fetch := fun _ => .fail }

/-- A world whose every profiles request is a transport failure. -/
def c8World : World := { page := fun _ => none, fetch := fun _ => .fail }

/-- A world with one version, one target and one subtarget whose
`profiles.json` comes back 200 with a body that raises an uncaught decode
error. -/
def c8CrashWorld : World :=
  { page := fun url =>
      if url = targetsBaseUrl "21.02.7" then some ["ath79/"]
      else if url = targetsBaseUrl "21.02.7" ++ "ath79/" then some ["generic/"]
      else none
    fetch := fun url =>
      if url = profilesUrlBase "21.02.7" "ath79/generic" ++ ".json" then .crash
      else .fail }

/-- A concrete world for the determinism witness. -/
def c9World : World :=
  { page := fun url => if url = RELEASES_PAGE_URL then some ["21.02.7/"] else none
    fetch := fun _ => .fail }

theorem string_data_append (a b : String) : (a ++ b).data = a.data ++ b.data := by
  cases a
  cases b
  rfl

theorem mem_dropWhile_of_not {α : Type} {p : α → Bool} {c : α} :
    ∀ {l : List α}, c ∈ l → p c = false → c ∈ l.dropWhile p := by
  intro l
  induction l with
  | nil => intro h _; cases h
  | cons a as ih =>
    intro hmem hp
    by_cases ha : p a = true
    · rw [List.dropWhile_cons, if_pos ha]
      rcases List.mem_cons.mp hmem with he | hm
      · rw [← he, hp] at ha
        cases ha
      · exact ih hm hp
    · rw [List.dropWhile_cons, if_neg ha]
      exact hmem

theorem pyStrip_ne_empty {p : Char → Bool} {s : String} {c : Char}
    (hc : c ∈ s.data) (hp : p c = false) : pyStrip p s ≠ "" := by
  intro h
  have hd : ((s.data.dropWhile p).reverse.dropWhile p).reverse = [] :=
    congrArg String.data h
  rw [List.reverse_eq_nil_iff, List.dropWhile_eq_nil_iff] at hd
  have h1 : c ∈ s.data.dropWhile p := mem_dropWhile_of_not hc hp
  have h2 : c ∈ (s.data.dropWhile p).reverse := List.mem_reverse.mpr h1
  have h3 := hd c h2
  rw [hp] at h3
  cases h3

theorem targetPathOf_ne_empty (a b : String) : targetPathOf a b ≠ "" := by
  intro h
  have hd : (targetPathOf a b).data = [] := congrArg String.data h
  have hm : '/' ∈ (targetPathOf a b).data := by
    rw [targetPathOf, string_data_append, string_data_append]
    exact List.mem_append.mpr (Or.inl (List.mem_append.mpr (Or.inr (by decide))))
  rw [hd] at hm
  cases hm

theorem strOptTruthy_getD_ne_empty {o : Option String}
    (h : strOptTruthy o = true) : o.getD "" ≠ "" := by
  cases o with
  | none => exact absurd h (by simp [strOptTruthy])
  | some s =>
    intro he
    have hs : s = "" := he
    subst hs
    exact absurd h (by decide)

theorem lookup_some_mem {l : List (String × String)} {k v : String}
    (h : l.lookup k = some v) : (k, v) ∈ l := by
  induction l with
  | nil => cases h
  | cons e es ih =>
    obtain ⟨k1, v1⟩ := e
    rw [List.lookup_cons] at h
    by_cases hk : (k == k1) = true
    · rw [hk] at h
      have hv : v1 = v := by
        cases h
        rfl
      have hke : k = k1 := by simpa using hk
      rw [← hke, hv]
      exact List.mem_cons_self _ _
    · rw [Bool.not_eq_true] at hk
      rw [hk] at h
      exact List.mem_cons_of_mem _ (ih h)

theorem lookup_none_not_mem {l : List (String × String)} {k : String}
    (h : l.lookup k = none) (v : String) : (k, v) ∉ l := by
  induction l with
  | nil => simp
  | cons e es ih =>
    obtain ⟨k1, v1⟩ := e
    rw [List.lookup_cons] at h
    by_cases hk : (k == k1) = true
    · rw [hk] at h
      cases h
    · rw [Bool.not_eq_true] at hk
      rw [hk] at h
      intro hm
      rcases List.mem_cons.mp hm with he | hm'
      · have : k = k1 := congrArg Prod.fst he
        rw [this] at hk
        simp at hk
      · exact ih h hm'

theorem lookup_unique {l : List (String × String)} {k v w : String}
    (hn : (l.map Prod.fst).Nodup) (hm : (k, v) ∈ l)
    (hl : l.lookup k = some w) : v = w := by
  induction l with
  | nil => cases hm
  | cons e es ih =>
    obtain ⟨k1, v1⟩ := e
    rw [List.map_cons] at hn
    obtain ⟨hk1, hes⟩ := List.nodup_cons.mp hn
    rw [List.lookup_cons] at hl
    rcases List.mem_cons.mp hm with he | hm'
    · have hkk : k = k1 := congrArg Prod.fst he
      have hvv : v = v1 := congrArg Prod.snd he
      have hb : (k == k1) = true := by simpa using hkk
      rw [hb] at hl
      cases hl
      exact hvv
    · by_cases hb : (k == k1) = true
      · have hkk : k = k1 := by simpa using hb
        subst hkk
        exact absurd (List.mem_map.mpr ⟨(k, v), hm', rfl⟩) hk1
      · rw [Bool.not_eq_true] at hb
        rw [hb] at hl
        exact ih hes hm' hl


theorem mem_updateRelease {l : List (String × String)} {m f : String}
    {p : String × String} (h : p ∈ updateRelease l m f) :
    p ∈ l ∨ p = (m, f) := by
  cases hl : l.lookup m with
  | none =>
    simp only [updateRelease, hl] at h
    rcases List.mem_append.mp h with h' | h'
    · exact Or.inl h'
    · exact Or.inr (List.mem_singleton.mp h')
  | some current =>
    simp only [updateRelease, hl] at h
    by_cases hc : current.data < f.data
    · rw [if_pos hc] at h
      obtain ⟨q, hq, hqe⟩ := List.mem_map.mp h
      by_cases hqm : (q.1 == m) = true
      · rw [if_pos hqm] at hqe
        exact Or.inr hqe.symm
      · rw [if_neg (by simpa using hqm)] at hqe
        rw [← hqe]
        exact Or.inl hq
    · rw [if_neg hc] at h
      exact Or.inl h

theorem updateRelease_self (l : List (String × String)) (m f : String) :
    ∃ v, (m, v) ∈ updateRelease l m f ∧ f.data ≤ v.data := by
  cases hl : l.lookup m with
  | none =>
    simp only [updateRelease, hl]
    exact ⟨f, List.mem_append.mpr (Or.inr (List.mem_singleton.mpr rfl)), le_refl _⟩
  | some current =>
    simp only [updateRelease, hl]
    by_cases hc : current.data < f.data
    · rw [if_pos hc]
      refine ⟨f, List.mem_map.mpr ⟨(m, current), lookup_some_mem hl, ?_⟩, le_refl _⟩
      rw [if_pos (by simp)]
    · rw [if_neg hc]
      exact ⟨current, lookup_some_mem hl, le_of_not_lt hc⟩

theorem updateRelease_mono {l : List (String × String)} {m f k v : String}
    (hn : (l.map Prod.fst).Nodup) (hm : (k, v) ∈ l) :
    ∃ w, (k, w) ∈ updateRelease l m f ∧ v.data ≤ w.data := by
  cases hl : l.lookup m with
  | none =>
    simp only [updateRelease, hl]
    exact ⟨v, List.mem_append.mpr (Or.inl hm), le_refl _⟩
  | some current =>
    simp only [updateRelease, hl]
    by_cases hc : current.data < f.data
    · rw [if_pos hc]
      by_cases hk : k = m
      · subst hk
        have hv : v = current := lookup_unique hn hm hl
        subst hv
        refine ⟨f, List.mem_map.mpr ⟨(k, v), hm, ?_⟩, le_of_lt hc⟩
        rw [if_pos (by simp)]
      · refine ⟨v, List.mem_map.mpr ⟨(k, v), hm, ?_⟩, le_refl _⟩
        rw [if_neg (by simpa using hk)]
    · rw [if_neg hc]
      exact ⟨v, hm, le_refl _⟩

theorem updateRelease_keys {l : List (String × String)} {m f : String}
    (hn : (l.map Prod.fst).Nodup) :
    ((updateRelease l m f).map Prod.fst).Nodup := by
  cases hl : l.lookup m with
  | none =>
    simp only [updateRelease, hl]
    rw [List.map_append, List.map_cons, List.map_nil]
    refine List.Nodup.append hn (by simp) ?_
    rw [List.disjoint_singleton]
    intro hmem
    obtain ⟨q, hq, hqe⟩ := List.mem_map.mp hmem
    obtain ⟨k1, v1⟩ := q
    have hk : k1 = m := hqe
    subst hk
    exact lookup_none_not_mem hl v1 hq
  | some current =>
    simp only [updateRelease, hl]
    by_cases hc : current.data < f.data
    · rw [if_pos hc, List.map_map]
      have he : l.map (Prod.fst ∘ fun p => if p.1 == m then (m, f) else p)
          = l.map Prod.fst := by
        refine List.map_congr_left ?_
        intro q _
        by_cases hqm : (q.1 == m) = true
        · have hq : q.1 = m := by simpa using hqm
          simp [Function.comp, hqm, hq]
        · simp [Function.comp, hqm]
      rw [he]
      exact hn
    · rw [if_neg hc]
      exact hn

theorem glprStep_keys (supported : List String) {acc : List (String × String)}
    (hn : (acc.map Prod.fst).Nodup) (link : String) :
    ((glprStep supported acc link).map Prod.fst).Nodup := by
  cases hv : versionPatternMatch link with
  | none =>
    simp only [glprStep, hv]
    exact hn
  | some f =>
    simp only [glprStep, hv]
    by_cases hs : supported.contains (majorOf f) = true
    · rw [if_pos hs]
      exact updateRelease_keys hn
    · rw [if_neg hs]
      exact hn

theorem glprStep_mono (supported : List String) {acc : List (String × String)}
    (hn : (acc.map Prod.fst).Nodup) (lk : String) {k v : String}
    (hm : (k, v) ∈ acc) :
    ∃ w, (k, w) ∈ glprStep supported acc lk ∧ v.data ≤ w.data := by
  cases hv : versionPatternMatch lk with
  | none =>
    simp only [glprStep, hv]
    exact ⟨v, hm, le_refl _⟩
  | some f =>
    simp only [glprStep, hv]
    by_cases hs : supported.contains (majorOf f) = true
    · rw [if_pos hs]
      exact updateRelease_mono hn hm
    · rw [if_neg hs]
      exact ⟨v, hm, le_refl _⟩

theorem glpr_foldl_mem (supported : List String) :
    ∀ (links : List String) (acc : List (String × String)) (p : String × String),
      p ∈ links.foldl (glprStep supported) acc →
      p ∈ acc ∨ ∃ link ∈ links, versionPatternMatch link = some p.2 ∧
        majorOf p.2 = p.1 ∧ p.1 ∈ supported := by
  intro links
  induction links with
  | nil =>
    intro acc p h
    exact Or.inl h
  | cons lk lks ih =>
    intro acc p h
    rw [List.foldl_cons] at h
    rcases ih (glprStep supported acc lk) p h with h' | ⟨link, hmem, hrest⟩
    · cases hv : versionPatternMatch lk with
      | none =>
        simp only [glprStep, hv] at h'
        exact Or.inl h'
      | some f =>
        simp only [glprStep, hv] at h'
        by_cases hs : supported.contains (majorOf f) = true
        · rw [if_pos hs] at h'
          rcases mem_updateRelease h' with h'' | hpe
          · exact Or.inl h''
          · subst hpe
            exact Or.inr ⟨lk, List.mem_cons_self _ _, hv, rfl, by simpa using hs⟩
        · rw [if_neg hs] at h'
          exact Or.inl h'
    · exact Or.inr ⟨link, List.mem_cons_of_mem _ hmem, hrest⟩

theorem glpr_foldl_dom (supported : List String) :
    ∀ (links : List String) (acc : List (String × String)),
      (acc.map Prod.fst).Nodup →
      (∀ k v, (k, v) ∈ acc →
        ∃ w, (k, w) ∈ links.foldl (glprStep supported) acc ∧ v.data ≤ w.data) ∧
      (∀ link ∈ links, ∀ f, versionPatternMatch link = some f →
        majorOf f ∈ supported →
        ∃ v, (majorOf f, v) ∈ links.foldl (glprStep supported) acc ∧
          f.data ≤ v.data) := by
  intro links
  induction links with
  | nil =>
    intro acc _
    refine ⟨fun k v hm => ⟨v, hm, le_refl _⟩, ?_⟩
    intro link hmem
    cases hmem
  | cons lk lks ih =>
    intro acc hn
    have hn' : ((glprStep supported acc lk).map Prod.fst).Nodup :=
      glprStep_keys supported hn lk
    obtain ⟨ihA, ihB⟩ := ih (glprStep supported acc lk) hn'
    constructor
    · intro k v hm
      obtain ⟨v1, hv1, hle1⟩ := glprStep_mono supported hn lk hm
      obtain ⟨v2, hv2, hle2⟩ := ihA k v1 hv1
      rw [List.foldl_cons]
      exact ⟨v2, hv2, le_trans hle1 hle2⟩
    · intro link hmem f hf hsf
      rcases List.mem_cons.mp hmem with he | hmem'
      · subst he
        have hstep : ∃ v1, (majorOf f, v1) ∈ glprStep supported acc link ∧
            f.data ≤ v1.data := by
          simp only [glprStep, hf]
          rw [if_pos (by simpa using hsf)]
          exact updateRelease_self acc (majorOf f) f
        obtain ⟨v1, hv1, hle1⟩ := hstep
        obtain ⟨v2, hv2, hle2⟩ := ihA (majorOf f) v1 hv1
        rw [List.foldl_cons]
        exact ⟨v2, hv2, le_trans hle1 hle2⟩
      · rw [List.foldl_cons]
        exact ihB link hmem' f hf hsf

theorem mem_dictEntryRecords {r : DeviceRecord} {arch tp v pid : String}
    {dd : DeviceDetails} (h : r ∈ dictEntryRecords arch tp v pid dd) :
    r.target = tp ∧ r.version = v ∧ r.arch = arch := by
  cases dd with
  | nondict => cases h
  | dict titles directTitle =>
    cases ht : titles.getD [] with
    | nil =>
      simp only [dictEntryRecords, ht] at h
      cases h
    | cons ti rest =>
      simp only [dictEntryRecords, ht] at h
      rw [List.mem_singleton] at h
      subst h
      exact ⟨rfl, rfl, rfl⟩

theorem mem_processDoc {r : DeviceRecord} {d : ProfilesData} {tp v : String}
    (h : r ∈ processDoc d tp v) :
    r.target = tp ∧ r.version = v ∧ r.arch ≠ "" := by
  unfold processDoc at h
  by_cases hg : (strOptTruthy d.arch_packages && profsTruthy d.profiles) = true
  · rw [if_pos hg] at h
    have ha : strOptTruthy d.arch_packages = true := by
      have hg' := hg
      simp only [Bool.and_eq_true] at hg'
      exact hg'.1
    have hane : d.arch_packages.getD "" ≠ "" := strOptTruthy_getD_ne_empty ha
    cases hp : d.profiles with
    | none =>
      rw [hp] at h
      cases h
    | some pr =>
      cases pr with
      | dictProfiles entries =>
        rw [hp] at h
        obtain ⟨pe, _, hr⟩ := List.mem_flatMap.mp h
        obtain ⟨h1, h2, h3⟩ := mem_dictEntryRecords hr
        refine ⟨h1, h2, ?_⟩
        rw [h3]
        exact hane
      | listProfiles profileStrings =>
        rw [hp] at h
        obtain ⟨ps, _, hr⟩ := List.mem_map.mp h
        subst hr
        exact ⟨rfl, rfl, hane⟩
      | otherTruthy =>
        rw [hp] at h
        cases h
  · rw [if_neg hg] at h
    cases h

theorem mem_unitRecords {r : DeviceRecord} {w : World} {version td sd : String}
    (h : r ∈ unitRecords w version td sd) :
    r.target = targetPathOf td sd ∧ r.version = version ∧ r.arch ≠ "" := by
  unfold unitRecords at h
  cases hd : (fetch_and_decompress_profiles w.fetch
      (profilesUrlBase version (targetPathOf td sd))).outcome with
  | raises =>
    rw [hd] at h
    cases h
  | returns dd =>
    cases dd with
    | none =>
      rw [hd] at h
      cases h
    | some d =>
      rw [hd] at h
      exact mem_processDoc h

theorem mem_processVersion {r : DeviceRecord} {w : World} {version : String}
    (h : r ∈ processVersion w version) :
    r.version = version ∧ r.arch ≠ "" ∧ r.target ≠ "" := by
  unfold processVersion at h
  obtain ⟨td, _, h1⟩ := List.mem_flatMap.mp h
  obtain ⟨sd, _, h2⟩ := List.mem_flatMap.mp h1
  obtain ⟨ht, hv, ha⟩ := mem_unitRecords h2
  refine ⟨hv, ha, ?_⟩
  rw [ht]
  exact targetPathOf_ne_empty td sd

/-- C1 counterexample: the run against `c1World` appends a record whose
`title` is the empty string to the final output list, so it is not true that
every record in the final output has all five fields non-empty, nor that a
descriptor mapping to an empty canonical field is dropped. -/
theorem fetch_all_emits_empty_title :
    (fetch_all_devices_from_structure c1World [("21.02", "21.02.7")]).written
      = some [c1rec] ∧ c1rec.title = "" := by
  constructor
  · decide
  · rfl

/-- C1 (amended): every record in the final output list has a non-empty
`arch`, a non-empty `target` (it always contains a slash), and a `version`
drawn from the supplied release dict; `title` and `profile` are never
re-checked after mapping and may be empty when the upstream data carries
empty strings. -/
theorem fetch_all_record_fields {w : World}
    {latest_releases : List (String × String)} {l : List DeviceRecord}
    {r : DeviceRecord}
    (hl : (fetch_all_devices_from_structure w latest_releases).written = some l)
    (hr : r ∈ l) :
    r.arch ≠ "" ∧ r.target ≠ "" ∧ r.version ∈ latest_releases.map Prod.snd := by
  unfold fetch_all_devices_from_structure at hl
  by_cases h1 : latest_releases.isEmpty = true
  · rw [if_pos h1] at hl
    simp at hl
  · rw [if_neg h1] at hl
    by_cases hcr : runRaises w latest_releases = true
    · rw [if_pos hcr] at hl
      simp at hl
    rw [if_neg hcr] at hl
    by_cases h2 : (latest_releases.flatMap fun p => processVersion w p.2).isEmpty = true
    · rw [if_pos h2] at hl
      simp at hl
    · rw [if_neg h2] at hl
      have hl' : sortDevices (latest_releases.flatMap fun p => processVersion w p.2) = l :=
        Option.some.inj hl
      rw [← hl'] at hr
      have hr' : r ∈ latest_releases.flatMap fun p => processVersion w p.2 :=
        (List.perm_insertionSort keyGe _).mem_iff.mp hr
      obtain ⟨p, hp, hrp⟩ := List.mem_flatMap.mp hr'
      obtain ⟨hv, ha, ht⟩ := mem_processVersion hrp
      refine ⟨ha, ht, ?_⟩
      rw [hv]
      exact List.mem_map.mpr ⟨p, hp, rfl⟩

/-- C1 witness: the amended field facts hold for the concrete record emitted
by `c1World`. -/
theorem fetch_all_record_fields_witness :
    c1rec.arch ≠ "" ∧ c1rec.target ≠ "" ∧
      c1rec.version ∈ ([("21.02", "21.02.7")].map Prod.snd) :=
  fetch_all_record_fields
    (show (fetch_all_devices_from_structure c1World [("21.02", "21.02.7")]).written
        = some [c1rec] by decide)
    (List.mem_singleton.mpr rfl)

/-- C2 counterexample: for the spec's own example (titles B, A, B with
versions 1.0, 2.0, 3.0) the sort puts both B records before the A record, so
titles are not in ascending order and A does not precede B. -/
theorem sort_puts_A_last :
    (sortDevices [c2recB1, c2recA2, c2recB3]).map (fun r => (r.title, r.version))
      = [("B", "3.0"), ("B", "1.0"), ("A", "2.0")] := by decide

/-- C2 (amended): the aggregator sorts by the key `(title, version)`
descending in both components (`reverse=True`): titles in descending order
and, within one title, versions in descending order; the result is a
permutation of the input, and on the example the order is B/3.0, B/1.0,
A/2.0. -/
theorem sortDevices_sorted_descending :
    (∀ l : List DeviceRecord, List.Sorted keyGe (sortDevices l)) ∧
    (∀ l : List DeviceRecord, (sortDevices l).Perm l) ∧
    (sortDevices [c2recB1, c2recA2, c2recB3]).map (fun r => (r.title, r.version))
      = [("B", "3.0"), ("B", "1.0"), ("A", "2.0")] :=
  ⟨fun l => List.sorted_insertionSort keyGe l,
   fun l => List.perm_insertionSort keyGe l,
   by decide⟩

/-- C3 counterexample: when every attempt fails, the requested URLs are
exactly `url_base + ".json"`, `+ ".json.gz"`, `+ ".json.xz"`; the bare
`url_base` (suffix `""`) is never requested, contrary to the claimed
four-element suffix chain. -/
theorem fetch_no_bare_attempt :
    (fetch_and_decompress_profiles (fun _ => .fail) "P").requested
      = ["P.json", "P.json.gz", "P.json.xz"] ∧
    "P" ∉ (fetch_and_decompress_profiles (fun _ => .fail) "P").requested := by
  decide

/-- C3 (amended): for every (target, subtarget) pair the source reader
attempts `profiles_base + ".json"`, `+ ".json.gz"`, `+ ".json.xz"` in
exactly that order (there is no bare `""` attempt).  An attempt that fails
with a caught failure (transport failure, non-200 status, or a decode error
of one of the caught types) falls through to the next suffix; the parsed
document of the first attempt that returns HTTP 200 and decodes successfully
is returned and no further URL is requested; when all three attempts fail
with caught failures the function returns `None` after requesting all three;
and an attempt whose 200 body raises an uncaught decode error ends the loop
at once: the exception propagates, nothing is returned and no further URL is
requested. -/
theorem fetch_fallback_chain (fetch : String → FetchOutcome) (url_base : String) :
    (∀ d, fetch (url_base ++ ".json") = .ok d →
      (fetch_and_decompress_profiles fetch url_base).outcome = .returns (some d) ∧
      (fetch_and_decompress_profiles fetch url_base).requested
        = [url_base ++ ".json"]) ∧
    (∀ d, (fetch (url_base ++ ".json")).caughtFailure = true →
      fetch (url_base ++ ".json.gz") = .ok d →
      (fetch_and_decompress_profiles fetch url_base).outcome = .returns (some d) ∧
      (fetch_and_decompress_profiles fetch url_base).requested
        = [url_base ++ ".json", url_base ++ ".json.gz"]) ∧
    (∀ d, (fetch (url_base ++ ".json")).caughtFailure = true →
      (fetch (url_base ++ ".json.gz")).caughtFailure = true →
      fetch (url_base ++ ".json.xz") = .ok d →
      (fetch_and_decompress_profiles fetch url_base).outcome = .returns (some d) ∧
      (fetch_and_decompress_profiles fetch url_base).requested
        = [url_base ++ ".json", url_base ++ ".json.gz", url_base ++ ".json.xz"]) ∧
    ((fetch (url_base ++ ".json")).caughtFailure = true →
      (fetch (url_base ++ ".json.gz")).caughtFailure = true →
      (fetch (url_base ++ ".json.xz")).caughtFailure = true →
      (fetch_and_decompress_profiles fetch url_base).outcome = .returns none ∧
      (fetch_and_decompress_profiles fetch url_base).requested
        = [url_base ++ ".json", url_base ++ ".json.gz", url_base ++ ".json.xz"]) ∧
    (fetch (url_base ++ ".json") = .crash →
      (fetch_and_decompress_profiles fetch url_base).outcome = .raises ∧
      (fetch_and_decompress_profiles fetch url_base).requested
        = [url_base ++ ".json"]) ∧
    ((fetch (url_base ++ ".json")).caughtFailure = true →
      fetch (url_base ++ ".json.gz") = .crash →
      (fetch_and_decompress_profiles fetch url_base).outcome = .raises ∧
      (fetch_and_decompress_profiles fetch url_base).requested
        = [url_base ++ ".json", url_base ++ ".json.gz"]) ∧
    ((fetch (url_base ++ ".json")).caughtFailure = true →
      (fetch (url_base ++ ".json.gz")).caughtFailure = true →
      fetch (url_base ++ ".json.xz") = .crash →
      (fetch_and_decompress_profiles fetch url_base).outcome = .raises ∧
      (fetch_and_decompress_profiles fetch url_base).requested
        = [url_base ++ ".json", url_base ++ ".json.gz", url_base ++ ".json.xz"]) := by
  refine ⟨?_, ?_, ?_, ?_, ?_, ?_, ?_⟩
  · intro d h
    constructor <;>
      simp [fetch_and_decompress_profiles, attemptExtensions, fadGo, h]
  · intro d h1 h2
    cases o1 : fetch (url_base ++ ".json") <;>
      simp_all [fetch_and_decompress_profiles, attemptExtensions, fadGo,
        FetchOutcome.caughtFailure]
  · intro d h1 h2 h3
    cases o1 : fetch (url_base ++ ".json") <;>
      cases o2 : fetch (url_base ++ ".json.gz") <;>
      simp_all [fetch_and_decompress_profiles, attemptExtensions, fadGo,
        FetchOutcome.caughtFailure]
  · intro h1 h2 h3
    cases o1 : fetch (url_base ++ ".json") <;>
      cases o2 : fetch (url_base ++ ".json.gz") <;>
      cases o3 : fetch (url_base ++ ".json.xz") <;>
      simp_all [fetch_and_decompress_profiles, attemptExtensions, fadGo,
        FetchOutcome.caughtFailure]
  · intro h
    constructor <;>
      simp [fetch_and_decompress_profiles, attemptExtensions, fadGo, h]
  · intro h1 h2
    cases o1 : fetch (url_base ++ ".json") <;>
      simp_all [fetch_and_decompress_profiles, attemptExtensions, fadGo,
        FetchOutcome.caughtFailure]
  · intro h1 h2 h3
    cases o1 : fetch (url_base ++ ".json") <;>
      cases o2 : fetch (url_base ++ ".json.gz") <;>
      simp_all [fetch_and_decompress_profiles, attemptExtensions, fadGo,
        FetchOutcome.caughtFailure]

/-- C3 witness: with `P.json` failing (a caught failure) and `P.json.gz`
succeeding, the document of `P.json.gz` is returned and `P.json.xz` is never
requested. -/
theorem fetch_fallback_chain_witness :
    (fetch_and_decompress_profiles c3fetch "P").outcome
      = .returns (some c3doc) ∧
    (fetch_and_decompress_profiles c3fetch "P").requested
      = ["P" ++ ".json", "P" ++ ".json.gz"] :=
  (fetch_fallback_chain c3fetch "P").2.1 c3doc (by decide) (by decide)

/-- C4 counterexample: a dict-of-dicts profile whose details carry no
`titles` list but a direct `title` key emits no record at all — the script
has no fallback to the direct `title` field. -/
theorem dict_profile_no_direct_title_fallback :
    processDoc c4docDirect "ath79/generic" "23.05.3" = [] := by decide

/-- C4 (amended): in the dict-of-dicts shape the title is the stripped
concatenation of the `vendor` and `model` fields of the first element of the
`titles` list; a profile whose `titles` list is absent or empty is skipped
entirely (its direct `title` key is ignored), and the claim's concrete
example emits exactly the claimed record. -/
theorem dict_profiles_title_mapping :
    (∀ arch tp v pid t, dictEntryRecords arch tp v pid (.dict none t) = []) ∧
    (∀ arch tp v pid t, dictEntryRecords arch tp v pid (.dict (some []) t) = []) ∧
    (∀ arch tp v pid t vdr mdl rest,
      dictEntryRecords arch tp v pid
          (.dict (some ({ vendor := some vdr, model := some mdl } :: rest)) t)
        = [{ title := pyStripWs (vdr ++ " " ++ mdl), target := tp, profile := pid,
             version := v, arch := arch }]) ∧
    processDoc c4doc "ath79/generic" "23.05.3"
      = [{ title := "Acme X1", target := "ath79/generic", profile := "dev1",
           version := "23.05.3", arch := "arm_cortex-a7" }] :=
  ⟨fun _ _ _ _ _ => rfl, fun _ _ _ _ _ => rfl,
   fun _ _ _ _ _ _ _ _ => rfl, by decide⟩

/-- C5: in the list-of-strings shape each profile string becomes one record
whose `profile` field is the string itself and whose title replaces
underscores and hyphens by spaces and title-cases the result; the string
`"tplink_archer-c7-v5"` yields the title `"Tplink Archer C7 V5"`. -/
theorem list_profiles_title_derivation :
    (∀ arch tp v ps, listEntryRecord arch tp v ps
      = { title := pyTitle (replaceChar '-' ' ' (replaceChar '_' ' ' ps))
          target := tp, profile := ps, version := v, arch := arch }) ∧
    processDoc c5doc "ath79/generic" "21.02.7"
      = [{ title := "Tplink Archer C7 V5", target := "ath79/generic",
           profile := "tplink_archer-c7-v5", version := "21.02.7",
           arch := "mips_24kc" }] :=
  ⟨fun _ _ _ _ => rfl, by decide⟩

/-- C6: version discovery keeps exactly the links matching
`^\d+\.\d+\.\d+/$`: every selected `(major, version)` pair comes from a
matching link with a supported major; every matching link with a supported
major is dominated by the selected version of its major (the selected one is
lexicographically largest); and the spec's example selects 21.02.7 and
22.03.0. -/
theorem version_discovery_spec :
    (∀ (supported links : List String) (p : String × String),
      p ∈ get_latest_point_releases supported links →
      ∃ link ∈ links, versionPatternMatch link = some p.2 ∧
        majorOf p.2 = p.1 ∧ p.1 ∈ supported) ∧
    (∀ (supported links : List String) (link f : String),
      link ∈ links → versionPatternMatch link = some f →
      majorOf f ∈ supported →
      ∃ v, (majorOf f, v) ∈ get_latest_point_releases supported links ∧
        f.data ≤ v.data) ∧
    get_latest_point_releases ["21.02", "22.03"]
        ["21.02.0/", "21.02.7/", "22.03.0/", "other/"]
      = [("21.02", "21.02.7"), ("22.03", "22.03.0")] := by
  refine ⟨?_, ?_, by decide⟩
  · intro supported links p h
    rcases glpr_foldl_mem supported links [] p h with h' | h'
    · cases h'
    · exact h'
  · intro supported links link f hmem hf hsf
    exact (glpr_foldl_dom supported links [] (by simp)).2 link hmem f hf hsf

/-- C6 witness: in the example, the link `21.02.0/` matches, its major is
supported, and the selected version for major 21.02 dominates 21.02.0. -/
theorem version_discovery_spec_witness :
    ∃ v, (majorOf "21.02.0", v) ∈ get_latest_point_releases ["21.02", "22.03"]
        ["21.02.0/", "21.02.7/", "22.03.0/", "other/"] ∧
      ("21.02.0" : String).data ≤ v.data :=
  version_discovery_spec.2.1 ["21.02", "22.03"]
    ["21.02.0/", "21.02.7/", "22.03.0/", "other/"] "21.02.0/" "21.02.0"
    (by decide) (by decide) (by decide)

/-- C7: when no release versions are discovered, or zero records are
produced across all versions, the run exits with status 1 and the writer is
never reached (no output file is written or modified). -/
theorem zero_yield_aborts (w : World)
    (h : get_latest_point_releases_run w = [] ∨
      (get_latest_point_releases_run w).flatMap (fun p => processVersion w p.2) = []) :
    (main_run w).exitCode = 1 ∧ (main_run w).written = none ∧
      outputFile (main_run w) = none := by
  rcases h with h | h
  · simp [main_run, h, outputFile]
  · by_cases hs : (get_latest_point_releases_run w).isEmpty = true
    · simp [main_run, hs, outputFile]
    · by_cases hcr : runRaises w (get_latest_point_releases_run w) = true
      · simp [main_run, hs, hcr, fetch_all_devices_from_structure, outputFile]
      · simp [main_run, hs, hcr, fetch_all_devices_from_structure, h, outputFile]

/-- C7 witness: against a world whose releases page is unreachable, the run
exits 1 and writes nothing. -/
theorem zero_yield_aborts_witness :
    (main_run c7World).exitCode = 1 ∧ (main_run c7World).written = none ∧
      outputFile (main_run c7World) = none :=
  zero_yield_aborts c7World (Or.inl (by decide))

/-- C8 counterexample: when a unit's three profile requests all fail at
transport level the script prints nothing for that unit — no warning line is
logged, the skip is silent; and when a unit's `profiles.json` comes back 200
with a body whose decoding raises an uncaught error, the run is not
continued but aborted: exit status 1 and no output written. -/
theorem unit_failure_logs_nothing :
    (fetch_and_decompress_profiles c8World.fetch
        (profilesUrlBase "21.02.7" (targetPathOf "ath79/" "generic/"))).log = [] ∧
    unitRecords c8World "21.02.7" "ath79/" "generic/" = [] ∧
    fetch_all_devices_from_structure c8CrashWorld [("21.02", "21.02.7")]
      = { exitCode := 1, written := none } := by
  decide

/-- C8 (amended): a unit whose three attempts all fail with caught failures
(transport failure, non-200, or a decode error of one of the caught types)
is recovered locally: the unit raises nothing and contributes zero records,
nothing at all is printed when the failures are transport failures (no
warning is logged), and the version's record list is the concatenation of
the per-unit contributions, so previously collected records are untouched
and the run continues with the next unit.  A decode failure outside the
caught tuple is not recovered: the unit raises without requesting any
further suffix, and a raising unit in a non-empty release dict aborts the
whole run with exit status 1 and no output written. -/
theorem unit_failure_skipped (w : World) (version target_dir subtarget_dir : String) :
    ((w.fetch (profilesUrlBase version (targetPathOf target_dir subtarget_dir)
        ++ ".json")).caughtFailure = true →
      (w.fetch (profilesUrlBase version (targetPathOf target_dir subtarget_dir)
        ++ ".json.gz")).caughtFailure = true →
      (w.fetch (profilesUrlBase version (targetPathOf target_dir subtarget_dir)
        ++ ".json.xz")).caughtFailure = true →
      unitRecords w version target_dir subtarget_dir = [] ∧
      unitRaises w version target_dir subtarget_dir = false) ∧
    (w.fetch (profilesUrlBase version (targetPathOf target_dir subtarget_dir)
        ++ ".json") = .fail →
      w.fetch (profilesUrlBase version (targetPathOf target_dir subtarget_dir)
        ++ ".json.gz") = .fail →
      w.fetch (profilesUrlBase version (targetPathOf target_dir subtarget_dir)
        ++ ".json.xz") = .fail →
      (fetch_and_decompress_profiles w.fetch
          (profilesUrlBase version (targetPathOf target_dir subtarget_dir))).log = []) ∧
    (w.fetch (profilesUrlBase version (targetPathOf target_dir subtarget_dir)
        ++ ".json") = .crash →
      unitRaises w version target_dir subtarget_dir = true ∧
      (fetch_and_decompress_profiles w.fetch
          (profilesUrlBase version (targetPathOf target_dir subtarget_dir))).requested
        = [profilesUrlBase version (targetPathOf target_dir subtarget_dir)
            ++ ".json"]) ∧
    (∀ latest_releases : List (String × String),
      latest_releases.isEmpty = false → runRaises w latest_releases = true →
      fetch_all_devices_from_structure w latest_releases
        = { exitCode := 1, written := none }) ∧
    processVersion w version
      = (get_subdirectories w (targetsBaseUrl version)).flatMap (fun td =>
          (get_subdirectories w (targetsBaseUrl version ++ td)).flatMap
            (fun sd => unitRecords w version td sd)) := by
  have key : ∀ (fetch : String → FetchOutcome) (b : String),
      (fetch (b ++ ".json")).caughtFailure = true →
      (fetch (b ++ ".json.gz")).caughtFailure = true →
      (fetch (b ++ ".json.xz")).caughtFailure = true →
      (fetch_and_decompress_profiles fetch b).outcome = .returns none := by
    intro fetch b k1 k2 k3
    cases o1 : fetch (b ++ ".json") <;> cases o2 : fetch (b ++ ".json.gz") <;>
      cases o3 : fetch (b ++ ".json.xz") <;>
      simp_all [fetch_and_decompress_profiles, attemptExtensions, fadGo,
        FetchOutcome.caughtFailure]
  refine ⟨?_, ?_, ?_, ?_, rfl⟩
  · intro k1 k2 k3
    have hout := key w.fetch
      (profilesUrlBase version (targetPathOf target_dir subtarget_dir)) k1 k2 k3
    constructor
    · simp only [unitRecords, hout]
    · simp only [unitRaises, hout]
  · intro e1 e2 e3
    simp [fetch_and_decompress_profiles, attemptExtensions, fadGo, e1, e2, e3]
  · intro hcr
    have hout : (fetch_and_decompress_profiles w.fetch
        (profilesUrlBase version (targetPathOf target_dir subtarget_dir))).outcome
        = .raises := by
      simp [fetch_and_decompress_profiles, attemptExtensions, fadGo, hcr]
    constructor
    · simp only [unitRaises, hout]
    · simp [fetch_and_decompress_profiles, attemptExtensions, fadGo, hcr]
  · intro latest_releases hne hraise
    simp [fetch_all_devices_from_structure, hne, hraise]

/-- C8 witness: the caught-failure part of the amended claim at a concrete
all-failing unit. -/
theorem unit_failure_skipped_witness :
    unitRecords c8World "21.02.7" "ath79/" "generic/" = [] ∧
    unitRaises c8World "21.02.7" "ath79/" "generic/" = false :=
  (unit_failure_skipped c8World "21.02.7" "ath79/" "generic/").1
    (by decide) (by decide) (by decide)

/-- C9: the pipeline is deterministic — two runs against worlds that answer
every page and fetch request identically produce the same run result and, in
particular, byte-identical output files. -/
theorem pipeline_deterministic (w1 w2 : World)
    (hp : ∀ url, w1.page url = w2.page url)
    (hf : ∀ url, w1.fetch url = w2.fetch url) :
    main_run w1 = main_run w2 ∧
      outputFile (main_run w1) = outputFile (main_run w2) := by
  obtain ⟨p1, f1⟩ := w1
  obtain ⟨p2, f2⟩ := w2
  have hp2 : p1 = p2 := funext hp
  have hf2 : f1 = f2 := funext hf
  subst hp2
  subst hf2
  exact ⟨rfl, rfl⟩

/-- C9 witness: determinism instantiated at a concrete world. -/
theorem pipeline_deterministic_witness :
    main_run c9World = main_run c9World ∧
      outputFile (main_run c9World) = outputFile (main_run c9World) :=
  pipeline_deterministic c9World c9World (fun _ => rfl) (fun _ => rfl)

/-- C10: in the dict-of-dicts shape with a non-empty `titles` list, a missing
`vendor` defaults to `"Generic"` and a missing `model` defaults to the
profile id, the title being the stripped space-joined concatenation; with a
non-empty profile id (indeed always) the resulting title is non-empty even
when both keys are absent. -/
theorem dict_profile_defaults (arch tp v pid vdr mdl : String)
    (rest : List TitleEntry) (t : Option String) (hpid : pid ≠ "") :
    dictEntryRecords arch tp v pid
        (.dict (some ({ vendor := none, model := none } :: rest)) t)
      = [{ title := pyStripWs ("Generic" ++ " " ++ pid), target := tp,
           profile := pid, version := v, arch := arch }] ∧
    dictEntryRecords arch tp v pid
        (.dict (some ({ vendor := none, model := some mdl } :: rest)) t)
      = [{ title := pyStripWs ("Generic" ++ " " ++ mdl), target := tp,
           profile := pid, version := v, arch := arch }] ∧
    dictEntryRecords arch tp v pid
        (.dict (some ({ vendor := some vdr, model := none } :: rest)) t)
      = [{ title := pyStripWs (vdr ++ " " ++ pid), target := tp,
           profile := pid, version := v, arch := arch }] ∧
    pyStripWs ("Generic" ++ " " ++ pid) ≠ "" := by
  refine ⟨rfl, rfl, rfl, ?_⟩
  refine @pyStrip_ne_empty _ _ 'G' ?_ (by decide)
  rw [string_data_append, string_data_append]
  exact List.mem_append.mpr (Or.inl (List.mem_append.mpr (Or.inl (by decide))))

/-- C10 witness: the defaults at a concrete profile id. -/
theorem dict_profile_defaults_witness :
    dictEntryRecords "mips_24kc" "ath79/generic" "21.02.7" "dev1"
        (.dict (some ({ vendor := none, model := none } :: [])) none)
      = [{ title := pyStripWs ("Generic" ++ " " ++ "dev1"),
           target := "ath79/generic", profile := "dev1",
           version := "21.02.7", arch := "mips_24kc" }] ∧
    dictEntryRecords "mips_24kc" "ath79/generic" "21.02.7" "dev1"
        (.dict (some ({ vendor := none, model := some "M" } :: [])) none)
      = [{ title := pyStripWs ("Generic" ++ " " ++ "M"),
           target := "ath79/generic", profile := "dev1",
           version := "21.02.7", arch := "mips_24kc" }] ∧
    dictEntryRecords "mips_24kc" "ath79/generic" "21.02.7" "dev1"
        (.dict (some ({ vendor := some "V", model := none } :: [])) none)
      = [{ title := pyStripWs ("V" ++ " " ++ "dev1"),
           target := "ath79/generic", profile := "dev1",
           version := "21.02.7", arch := "mips_24kc" }] ∧
    pyStripWs ("Generic" ++ " " ++ "dev1") ≠ "" :=
  dict_profile_defaults "mips_24kc" "ath79/generic" "21.02.7" "dev1" "V" "M"
    [] none (by decide)
